import Mathlib

/-!
Verification development for the trace-log-demo repository (service-a and
service-b, Go, OpenTelemetry + gin + zap).

The two `main.go` files under `src/` configure a tracer provider with
`ParentBased(TraceIDRatioBased(0.01))` and the W3C `TraceContext` propagator,
start spans in `getUser` / `getInfo`, and emit structured logs carrying a
`trace_id` field (`logInfo`, `logError`, and the `loggerWithTraceID`
middleware).  The sampling, span-creation and propagation machinery itself
lives in the OpenTelemetry SDK, outside this repository's sources; those
parts are modelled from the specification (each such definition carries a
doc comment beginning `Modelled from the spec:`).  Everything that is in
`src/` (the handlers, the logging helpers, the middleware) is embedded
directly from the Go code.

Machine integers are modelled as `Nat` (with explicit `% 2 ^ 64` where the
low 64 bits of a TraceID matter); the float sampling ratio is modelled as an
exact rational.
-/

namespace TraceDemo

/-! ## Identifier model: fixed-width lowercase hexadecimal encoding -/

/-- The sixteen lowercase hexadecimal digit characters, in value order:
the decimal digits followed by the letters a through f. -/
def hexChars : List Char :=
  (List.range 16).map fun d => if d < 10 then Char.ofNat (48 + d) else Char.ofNat (87 + d)

/-- Whether a character is a lowercase hexadecimal digit. -/
def isLowerHex (c : Char) : Bool :=
  decide (c ∈ hexChars)

/-- Numeric value of a hexadecimal digit character (16 if not a digit). -/
def hexVal (c : Char) : Nat :=
  hexChars.indexOf c

/-- The hexadecimal digit character for a value below 16. -/
def hexDigit (d : Nat) : Char :=
  hexChars.getD d '0'

/-- Big-endian value of a list of hexadecimal digit characters. -/
def decodeHexList (l : List Char) : Nat :=
  l.foldl (fun a c => a * 16 + hexVal c) 0

/-- Fixed-width big-endian hexadecimal encoding of a natural number
(most significant digit first, zero-padded to the requested width). -/
def encodeHexList : Nat → Nat → List Char
  | 0, _ => []
  | w + 1, n => encodeHexList w (n / 16) ++ [hexDigit (n % 16)]

/-- Fixed-width lowercase hexadecimal encoding as a string: 32 characters
for a TraceID, 16 for a SpanID (`TraceID.String()` / `SpanID.String()`). -/
def encodeHexStr (w n : Nat) : String :=
  ⟨encodeHexList w n⟩

/-! ## Data model -/

/-- A propagated span context: 128-bit TraceID, 64-bit SpanID of the current
span, the sampled flag, and whether the context was reconstructed from an
incoming wire carrier. -/
structure SpanContext where
  tid : Nat
  sid : Nat
  sampled : Bool
  remote : Bool
deriving DecidableEq, Repr

/-- The all-zero (invalid / absent) span context, as carried by the no-op
span that `trace.SpanFromContext` returns when the execution context holds
no span. -/
def zeroSpanContext : SpanContext :=
  ⟨0, 0, false, false⟩

/-- The span context visible in an execution context: the active one when
present, otherwise the all-zero context of the no-op span
(`trace.SpanFromContext(ctx).SpanContext()`). -/
def spanFromContext (ctx : Option SpanContext) : SpanContext :=
  ctx.getD zeroSpanContext

/-- A single timed unit of work, as finished spans are handed to the
exporter. -/
structure Span where
  tid : Nat
  sid : Nat
  parent : Option Nat
  name : String
  sampled : Bool
  attrs : List (String × String)
  startTime : Nat
  endTime : Option Nat
deriving DecidableEq, Repr

/-! ## Sampler -/

/-- Modelled from the spec: the `TraceIDRatioBased` sampler state (the SDK
precomputes the comparison bound `ratio * 2 ^ 63` once at construction;
the decision compares the TraceID-derived value against it). -/
structure Sampler where
  bound : ℚ
deriving DecidableEq, Repr

/-- Modelled from the spec: construction of `TraceIDRatioBased(ratio)` —
the decision bound is derived from the ratio alone. -/
def mkSampler (ratio : ℚ) : Sampler :=
  ⟨ratio * 2 ^ 63⟩

/-- The low-order 64 bits of a TraceID. -/
def low64 (tid : Nat) : Nat :=
  tid % 2 ^ 64

/-- Modelled from the spec: `decide(traceID)` of `TraceIDRatioBased` — a
fixed-probability decision derived deterministically from the TraceID's
low-order bits mapped into [0,1) (here `(low64 tid / 2) / 2 ^ 63`) and
compared against the configured ratio, i.e. `low64 tid / 2 < ratio * 2 ^ 63`. -/
def shouldSample (s : Sampler) (tid : Nat) : Bool :=
  decide ((low64 tid / 2 : Nat) < s.bound)

/-- Modelled from the spec: `ParentBased(root)` — a non-root span inherits
the parent's sampled flag unchanged; only a root span (no active parent
context) consults the ratio sampler. -/
def parentBasedDecision (root : Sampler) (parent : Option SpanContext) (tid : Nat) : Bool :=
  match parent with
  | some sc => sc.sampled
  | none => shouldSample root tid

/-- Modelled from the spec: the configuration error raised at startup for a
sampling ratio outside [0,1]. -/
inductive TraceError where
  | configurationError
deriving DecidableEq, Repr

/-- Modelled from the spec: sampler construction validates the configured
ratio — a ratio outside [0,1] is a `ConfigurationError` (fatal at startup,
never at request time). -/
def mkSamplerChecked (ratio : ℚ) : Except TraceError Sampler :=
  if ratio < 0 ∨ 1 < ratio then .error .configurationError else .ok (mkSampler ratio)

/-- The sampling ratio configured in both services' `initTracer`
(`TraceIDRatioBased(0.01)`). -/
def configuredRatio : ℚ :=
  1 / 100

/-- The `initTracer` pipeline as far as sampling is concerned: build the
`ParentBased(TraceIDRatioBased(ratio))` sampler, propagating any
configuration error. -/
def initTracerModel (ratio : ℚ) : Except TraceError Sampler :=
  mkSamplerChecked ratio

/-- The outcome of process startup (`main`): either `logger.Fatal` on a
tracer-initialisation error, or a running service holding the sampler. -/
inductive StartupResult where
  | fatal (e : TraceError)
  | running (s : Sampler)
deriving DecidableEq, Repr

/-- Startup as in both services' `main`: initialise the tracer; a failure is
fatal before any request is served. -/
def startupModel (ratio : ℚ) : StartupResult :=
  match initTracerModel ratio with
  | .error e => .fatal e
  | .ok s => .running s

/-! ## Tracer: starting and finishing spans -/

/-- Modelled from the spec: `tracer.Start` / `startSpan`.  With no active
SpanContext a new TraceID is minted (`freshTid`) and the span is a root
(parent `none`) whose sampled flag comes from the ratio sampler; otherwise
the span inherits the active context's TraceID and sampled flag, its parent
is the active context's SpanID, and a fresh SpanID (`freshSid`) is minted.
The SDK's random ID generator is modelled by the explicit `freshTid` /
`freshSid` parameters.  Returns the new span and the superseding execution
context. -/
def startSpan (smp : Sampler) (ctx : Option SpanContext) (name : String)
    (attrs : List (String × String)) (freshTid freshSid now : Nat) :
    Span × SpanContext :=
  match ctx with
  | some sc =>
      (⟨sc.tid, freshSid, some sc.sid, name, sc.sampled, attrs, now, none⟩,
       ⟨sc.tid, freshSid, sc.sampled, false⟩)
  | none =>
      let sampled := parentBasedDecision smp none freshTid
      (⟨freshTid, freshSid, none, name, sampled, attrs, now, none⟩,
       ⟨freshTid, freshSid, sampled, false⟩)

/-- What finishing a span does besides stamping it: enqueue to the exporter,
drop an unsampled span, or report caller misuse (a second finish) as a
warning.  `fatalError` is never produced: a double finish is reported, not
fatal. -/
inductive FinishEffect where
  | exported
  | dropped
  | doubleFinishWarning
  | fatalError
deriving DecidableEq, Repr

/-- Modelled from the spec: `finishSpan` / `span.End`.  The first call
stamps the end time and (only if sampled) enqueues the span for export; a
call on an already-finished span is a no-op that is reported as a warning,
never fatal. -/
def finishSpan (sp : Span) (now : Nat) : Span × FinishEffect :=
  match sp.endTime with
  | some _ => (sp, .doubleFinishWarning)
  | none =>
      ({ sp with endTime := some now }, if sp.sampled then .exported else .dropped)

/-- A chain of child spans under one context: each element of `sids` starts
one more child span under the context produced by the previous start. -/
def buildTraceAux (smp : Sampler) (ctx : SpanContext) (now : Nat) :
    List Nat → List Span
  | [] => []
  | sid :: rest =>
      let r := startSpan smp (some ctx) "child" [] 0 sid now
      r.1 :: buildTraceAux smp r.2 now rest

/-- A whole trace in the model: a root span started with no active context,
followed by a chain of descendants, each the child of the previous span. -/
def buildTrace (smp : Sampler) (rootTid rootSid now : Nat)
    (childSids : List Nat) : List Span :=
  let r := startSpan smp none "root" [] rootTid rootSid now
  r.1 :: buildTraceAux smp r.2 now childSids

/-! ## Propagator: the W3C `traceparent` header -/

/-- Split a character list on the dash separator of the
`version-traceid-spanid-flags` header layout. -/
def splitDash : List Char → List (List Char)
  | [] => [[]]
  | c :: rest =>
      if c = '-' then [] :: splitDash rest
      else
        match splitDash rest with
        | [] => [[c]]
        | g :: gs => (c :: g) :: gs

/-- Assemble a `traceparent` header value from its four segments. -/
def mkCarrier (v t p f : List Char) : List Char :=
  v ++ '-' :: (t ++ '-' :: (p ++ '-' :: f))

/-- Modelled from the spec: `extract` of the W3C `TraceContext` propagator.
The header value must split into at least four segments
`{version}-{trace-id}-{span-id}-{flags}` of lengths 2/32/16/2, all lowercase
hex; version `ff` is rejected, the trace and span ids must be nonzero, and
version `00` admits exactly four segments (other versions are parsed
best-effort, tolerating trailing segments).  Any failure yields "absent"
(`none`), never an error.  The sampled flag is bit 0 of the flags byte, and
an extracted context is marked remote. -/
def extractList (l : List Char) : Option SpanContext :=
  match splitDash l with
  | v :: t :: p :: f :: rest =>
      if v.length = 2 ∧ v.all isLowerHex = true ∧ v ≠ ['f', 'f']
          ∧ t.length = 32 ∧ t.all isLowerHex = true ∧ decodeHexList t ≠ 0
          ∧ p.length = 16 ∧ p.all isLowerHex = true ∧ decodeHexList p ≠ 0
          ∧ f.length = 2 ∧ f.all isLowerHex = true
          ∧ (v ≠ ['0', '0'] ∨ rest = []) then
        some ⟨decodeHexList t, decodeHexList p, decodeHexList f % 2 == 1, true⟩
      else none
  | _ => none

/-- Modelled from the spec: `inject` of the W3C `TraceContext` propagator —
writes `00-{32-hex trace-id}-{16-hex span-id}-{flags}` where the flags byte
is `01` when sampled and `00` otherwise. -/
def injectList (sc : SpanContext) : List Char :=
  mkCarrier ['0', '0'] (encodeHexList 32 sc.tid) (encodeHexList 16 sc.sid)
    (if sc.sampled then ['0', '1'] else ['0', '0'])

/-- Extraction from the header value as a string. -/
def extractHeader (s : String) : Option SpanContext :=
  extractList s.data

/-- Injection producing the header value as a string. -/
def injectHeader (sc : SpanContext) : String :=
  ⟨injectList sc⟩

/-! ## Correlated logging (from `src`) -/

/-- Log levels used by the services (zap). -/
inductive Level where
  | info
  | warn
  | error
deriving DecidableEq, Repr

/-- A structured log field value (`zap.String` / `zap.Int` / `zap.Duration`). -/
inductive FieldVal where
  | str (s : String)
  | int (i : Int)
  | dur (d : Int)
deriving DecidableEq, Repr

/-- One structured log record: level, message, and ordered structured
fields. -/
structure LogRecord where
  level : Level
  msg : String
  fields : List (String × FieldVal)
deriving DecidableEq, Repr

/-- The `logInfo` helper of both services: an info record carrying the
given trace id and service name as structured fields. -/
def logInfo (traceID service message : String) : LogRecord :=
  ⟨.info, message, [("trace_id", .str traceID), ("service", .str service)]⟩

/-- The `logError` helper of both services: an error record carrying the
given trace id and service name as structured fields. -/
def logError (traceID service message : String) : LogRecord :=
  ⟨.error, message, [("trace_id", .str traceID), ("service", .str service)]⟩

/-- The hex trace id the `loggerWithTraceID` middleware reads after the
handler ran:
`oteltrace.SpanFromContext(c.Request.Context()).SpanContext().TraceID().String()`. -/
def middlewareTraceID (ctx : Option SpanContext) : String :=
  encodeHexStr 32 (spanFromContext ctx).tid

/-- The single "HTTP Request" record built by the `loggerWithTraceID`
middleware (identical in both services): the six fields `trace_id`,
`method`, `path`, `status`, `latency`, `client_ip`, at Error level for
status ≥ 500, Warn for status ≥ 400, Info otherwise; a nonempty raw query
is appended to the path. -/
def loggerRecord (ctx : Option SpanContext) (method path rawQuery : String)
    (status : Int) (latency : Int) (clientIP : String) : LogRecord :=
  let fullPath := if rawQuery ≠ "" then path ++ "?" ++ rawQuery else path
  let fields : List (String × FieldVal) :=
    [("trace_id", .str (middlewareTraceID ctx)),
     ("method", .str method),
     ("path", .str fullPath),
     ("status", .int status),
     ("latency", .dur latency),
     ("client_ip", .str clientIP)]
  if status ≥ 500 then ⟨.error, "HTTP Request", fields⟩
  else if status ≥ 400 then ⟨.warn, "HTTP Request", fields⟩
  else ⟨.info, "HTTP Request", fields⟩

/-- All records the `loggerWithTraceID` middleware emits for one completed
request: exactly the one "HTTP Request" record. -/
def loggerMiddlewareLogs (ctx : Option SpanContext) (method path rawQuery : String)
    (status : Int) (latency : Int) (clientIP : String) : List LogRecord :=
  [loggerRecord ctx method path rawQuery status latency clientIP]

/-! ## The handlers (from `src`) -/

/-- The outcome of service-a's outbound HTTP call to service-b in
`getUser`: a transport error, or a response with status and body. -/
inductive CallOutcome where
  | transportError (msg : String)
  | response (status : Int) (body : String)
deriving DecidableEq, Repr

/-- The body of `getUser` after its span is started (service-a): the four
log statements (the third depending on the outcome of the call to
service-b) and the computed name, which is `"otelgin tester"` exactly for
id `"123"` and `"unknown"` otherwise. -/
def getUserModel (id : String) (outcome : CallOutcome) (traceID : String) :
    List LogRecord × String :=
  let l₁ := logInfo traceID "UserService" ("Getting user with id=" ++ id)
  let l₂ := logInfo traceID "UserService"
    "Calling service-b: GET http://localhost:8081/info"
  let l₃ :=
    match outcome with
    | .transportError msg =>
        logError traceID "UserService" ("Failed to call service-b: " ++ msg)
    | .response status body =>
        logInfo traceID "UserService"
          ("Service-b response: status=" ++ toString status ++ ", body=" ++ body)
  let result := if id = "123" then "otelgin tester" else "unknown"
  let l₄ := logInfo traceID "UserService" ("Returning user: " ++ result)
  ([l₁, l₂, l₃, l₄], result)

/-- Service-b's handling of a request to `/info` as far as tracing is
concerned: the otelgin middleware extracts the incoming `traceparent`
header (absent or unparsable ⇒ no active context ⇒ a fresh root), starts
the server span under the resulting context, and the handler answers with
status 200 unconditionally (`c.JSON(http.StatusOK, ...)`). -/
def serviceBProcess (smp : Sampler) (header : Option String)
    (freshTid freshSid now : Nat) : Int × Span :=
  let ctx := header.bind extractHeader
  let r := startSpan smp ctx "GET /info" [] freshTid freshSid now
  (200, r.1)

/-! ## Helper lemmas: hexadecimal encoding -/

theorem isLowerHex_iff_mem {c : Char} : isLowerHex c = true ↔ c ∈ hexChars := by
  simp [isLowerHex]

theorem hexVal_lt {c : Char} (h : isLowerHex c = true) : hexVal c < 16 := by
  have hm : c ∈ hexChars := isLowerHex_iff_mem.mp h
  have := List.indexOf_lt_length.mpr hm
  simpa [hexVal, hexChars] using this

theorem hexDigit_hexVal {c : Char} (h : isLowerHex c = true) :
    hexDigit (hexVal c) = c := by
  have hm : c ∈ hexChars := isLowerHex_iff_mem.mp h
  have hlt : hexChars.indexOf c < hexChars.length := List.indexOf_lt_length.mpr hm
  simp only [hexDigit, hexVal]
  rw [List.getD_eq_getElem hexChars '0' hlt, List.getElem_indexOf hlt]

theorem decodeHexList_append (l : List Char) (c : Char) :
    decodeHexList (l ++ [c]) = decodeHexList l * 16 + hexVal c := by
  simp [decodeHexList, List.foldl_append]

theorem length_encodeHexList (w : Nat) : ∀ n, (encodeHexList w n).length = w := by
  induction w with
  | zero => intro n; rfl
  | succ w ih => intro n; simp [encodeHexList, ih]

theorem encodeHexList_decodeHexList (l : List Char) (h : l.all isLowerHex = true) :
    encodeHexList l.length (decodeHexList l) = l := by
  induction l using List.reverseRecOn with
  | nil => rfl
  | append_singleton l c ih =>
      simp only [List.all_append, List.all_cons, List.all_nil, Bool.and_eq_true,
        Bool.and_true] at h
      obtain ⟨hall, hc⟩ := h
      have hlt : hexVal c < 16 := hexVal_lt hc
      rw [decodeHexList_append]
      have hlen : (l ++ [c]).length = l.length + 1 := by simp
      rw [hlen]
      show encodeHexList l.length ((decodeHexList l * 16 + hexVal c) / 16)
          ++ [hexDigit ((decodeHexList l * 16 + hexVal c) % 16)] = l ++ [c]
      have hdiv : (decodeHexList l * 16 + hexVal c) / 16 = decodeHexList l := by
        omega
      have hmod : (decodeHexList l * 16 + hexVal c) % 16 = hexVal c := by
        omega
      rw [hdiv, hmod, ih hall, hexDigit_hexVal hc]

/-! ## Helper lemmas: splitting the header on dashes -/

theorem splitDash_ne_nil (l : List Char) : splitDash l ≠ [] := by
  induction l with
  | nil => simp [splitDash]
  | cons c rest ih =>
      simp only [splitDash]
      split
      · simp
      · split
        · simp
        · simp

theorem splitDash_no_dash (l : List Char) (h : ∀ c ∈ l, c ≠ '-') :
    splitDash l = [l] := by
  induction l with
  | nil => rfl
  | cons c rest ih =>
      have hc : c ≠ '-' := h c (by simp)
      have hrest : splitDash rest = [rest] := ih (fun x hx => h x (by simp [hx]))
      simp only [splitDash, if_neg hc, hrest]

theorem splitDash_append (l₁ l₂ : List Char) (h : ∀ c ∈ l₁, c ≠ '-') :
    splitDash (l₁ ++ '-' :: l₂) = l₁ :: splitDash l₂ := by
  induction l₁ with
  | nil => simp [splitDash]
  | cons c rest ih =>
      have hc : c ≠ '-' := h c (by simp)
      have hrest := ih (fun x hx => h x (by simp [hx]))
      simp only [List.cons_append, splitDash, List.append_eq, if_neg hc, hrest]

theorem no_dash_of_all_hex (l : List Char) (h : l.all isLowerHex = true) :
    ∀ c ∈ l, c ≠ '-' := by
  intro c hc
  have hval := List.all_eq_true.mp h c hc
  intro heq
  subst heq
  have hdash : isLowerHex '-' = false := by decide
  rw [hdash] at hval
  exact absurd hval (by decide)

theorem splitDash_mkCarrier (v t p f : List Char)
    (hv : ∀ c ∈ v, c ≠ '-') (ht : ∀ c ∈ t, c ≠ '-')
    (hp : ∀ c ∈ p, c ≠ '-') (hf : ∀ c ∈ f, c ≠ '-') :
    splitDash (mkCarrier v t p f) = [v, t, p, f] := by
  unfold mkCarrier
  rw [splitDash_append v _ hv, splitDash_append t _ ht, splitDash_append p _ hp,
    splitDash_no_dash f hf]

/-! ## Helper lemmas: sampler and traces -/

theorem shouldSample_ratio_zero (tid : Nat) :
    shouldSample (mkSampler 0) tid = false := by
  unfold shouldSample mkSampler
  apply decide_eq_false
  simp

theorem shouldSample_ratio_one (tid : Nat) :
    shouldSample (mkSampler 1) tid = true := by
  unfold shouldSample mkSampler low64
  apply decide_eq_true
  have h1 : tid % 2 ^ 64 / 2 < 2 ^ 63 := by
    have : tid % 2 ^ 64 < 2 ^ 64 := Nat.mod_lt _ (by norm_num)
    omega
  have h2 : ((tid % 2 ^ 64 / 2 : Nat) : ℚ) < ((2 ^ 63 : Nat) : ℚ) := by
    exact_mod_cast h1
  calc ((tid % 2 ^ 64 / 2 : Nat) : ℚ) < ((2 ^ 63 : Nat) : ℚ) := h2
    _ = (1 : ℚ) * 2 ^ 63 := by push_cast; ring

theorem sampled_buildTraceAux (smp : Sampler) (now : Nat) :
    ∀ (sids : List Nat) (ctx : SpanContext) (sp : Span),
      sp ∈ buildTraceAux smp ctx now sids → sp.sampled = ctx.sampled := by
  intro sids
  induction sids with
  | nil =>
      intro ctx sp h
      simp [buildTraceAux] at h
  | cons sid rest ih =>
      intro ctx sp h
      simp only [buildTraceAux, List.mem_cons] at h
      rcases h with h | h
      · subst h; rfl
      · simpa using ih _ sp h

theorem sampled_buildTrace (smp : Sampler) (rootTid rootSid now : Nat)
    (sids : List Nat) (sp : Span)
    (h : sp ∈ buildTrace smp rootTid rootSid now sids) :
    sp.sampled = shouldSample smp rootTid := by
  simp only [buildTrace, List.mem_cons] at h
  rcases h with h | h
  · subst h; rfl
  · simpa using sampled_buildTraceAux smp now sids _ sp h

/-! ## Claims -/

/-- C1: for every span started (as `tracer.Start` does in `getUser` and
`getInfo`) while the execution context carries an active SpanContext, the
new span inherits the parent's TraceID and sampled flag unchanged, its
parent SpanID equals the active SpanContext's SpanID, and it receives a
freshly minted SpanID distinct from its parent's; the superseding execution
context carries the same TraceID and sampled flag and the new SpanID. -/
theorem c1_child_span_inherits (smp : Sampler) (sc : SpanContext)
    (name : String) (attrs : List (String × String)) (freshTid freshSid now : Nat)
    (hfresh : freshSid ≠ sc.sid) :
    (startSpan smp (some sc) name attrs freshTid freshSid now).1.tid = sc.tid ∧
    (startSpan smp (some sc) name attrs freshTid freshSid now).1.sampled = sc.sampled ∧
    (startSpan smp (some sc) name attrs freshTid freshSid now).1.parent = some sc.sid ∧
    (startSpan smp (some sc) name attrs freshTid freshSid now).1.sid = freshSid ∧
    (startSpan smp (some sc) name attrs freshTid freshSid now).1.sid ≠ sc.sid ∧
    (startSpan smp (some sc) name attrs freshTid freshSid now).2.tid = sc.tid ∧
    (startSpan smp (some sc) name attrs freshTid freshSid now).2.sid = freshSid ∧
    (startSpan smp (some sc) name attrs freshTid freshSid now).2.sampled = sc.sampled :=
  ⟨rfl, rfl, rfl, rfl, hfresh, rfl, rfl, rfl⟩

/-- Witness for C1 at a concrete parent context and fresh SpanID. -/
theorem c1_witness :
    (3 : Nat) ≠ (⟨1, 2, true, true⟩ : SpanContext).sid ∧
    ((startSpan ⟨0⟩ (some ⟨1, 2, true, true⟩) "getUser" [("id", "123")] 9 3 7).1.tid
        = (⟨1, 2, true, true⟩ : SpanContext).tid ∧
      (startSpan ⟨0⟩ (some ⟨1, 2, true, true⟩) "getUser" [("id", "123")] 9 3 7).1.sampled
        = (⟨1, 2, true, true⟩ : SpanContext).sampled ∧
      (startSpan ⟨0⟩ (some ⟨1, 2, true, true⟩) "getUser" [("id", "123")] 9 3 7).1.parent
        = some (⟨1, 2, true, true⟩ : SpanContext).sid ∧
      (startSpan ⟨0⟩ (some ⟨1, 2, true, true⟩) "getUser" [("id", "123")] 9 3 7).1.sid = 3 ∧
      (startSpan ⟨0⟩ (some ⟨1, 2, true, true⟩) "getUser" [("id", "123")] 9 3 7).1.sid
        ≠ (⟨1, 2, true, true⟩ : SpanContext).sid ∧
      (startSpan ⟨0⟩ (some ⟨1, 2, true, true⟩) "getUser" [("id", "123")] 9 3 7).2.tid
        = (⟨1, 2, true, true⟩ : SpanContext).tid ∧
      (startSpan ⟨0⟩ (some ⟨1, 2, true, true⟩) "getUser" [("id", "123")] 9 3 7).2.sid = 3 ∧
      (startSpan ⟨0⟩ (some ⟨1, 2, true, true⟩) "getUser" [("id", "123")] 9 3 7).2.sampled
        = (⟨1, 2, true, true⟩ : SpanContext).sampled) :=
  ⟨by decide,
   c1_child_span_inherits ⟨0⟩ ⟨1, 2, true, true⟩ "getUser" [("id", "123")] 9 3 7 (by decide)⟩

/-- C2: for root spans the sampling decision is a deterministic function of
the TraceID and the configured ratio — any two samplers obtained by
initialising the tracer from the same ratio (e.g. in two different
processes, or in the same process before and after a restart) give the same
decision on the same TraceID. -/
theorem c2_sampling_deterministic (r : ℚ) (s₁ s₂ : Sampler) (tid : Nat)
    (h₁ : initTracerModel r = .ok s₁) (h₂ : initTracerModel r = .ok s₂) :
    shouldSample s₁ tid = shouldSample s₂ tid := by
  rw [h₁] at h₂
  injection h₂ with h
  rw [h]

/-- Witness for C2 at the configured ratio 1/100 and TraceID 42. -/
theorem c2_witness :
    initTracerModel (1 / 100) = .ok (mkSampler (1 / 100)) ∧
    initTracerModel (1 / 100) = .ok (mkSampler (1 / 100)) ∧
    shouldSample (mkSampler (1 / 100)) 42 = shouldSample (mkSampler (1 / 100)) 42 :=
  have h : initTracerModel (1 / 100) = .ok (mkSampler (1 / 100)) := by
    have hcond : ¬((1 / 100 : ℚ) < 0 ∨ 1 < (1 / 100 : ℚ)) := by norm_num
    simp only [initTracerModel, mkSamplerChecked, if_neg hcond]
  ⟨h, h, c2_sampling_deterministic (1 / 100) _ _ 42 h h⟩

/-- C8: finishing an already-finished span a second time is a no-op — the
span (in particular its recorded end time) is unchanged by the second call,
nothing further is exported, and the second call is reported as a warning,
never as a fatal error. -/
theorem c8_double_finish_noop (sp : Span) (t₁ t₂ : Nat) :
    finishSpan (finishSpan sp t₁).1 t₂
      = ((finishSpan sp t₁).1, .doubleFinishWarning) ∧
    (finishSpan (finishSpan sp t₁).1 t₂).1.endTime = (finishSpan sp t₁).1.endTime ∧
    (∀ (s : Span) (now : Nat), (finishSpan s now).2 ≠ .fatalError) := by
  refine ⟨?_, ?_, ?_⟩
  · rcases h : sp.endTime with _ | e <;> simp [finishSpan, h]
  · rcases h : sp.endTime with _ | e <;> simp [finishSpan, h]
  · intro s now
    rcases h : s.endTime with _ | e
    · rcases hs : s.sampled <;> simp [finishSpan, h, hs]
    · simp [finishSpan, h]

/-- C9: the name computed by `getUser` depends only on the id parameter —
it is "otelgin tester" exactly when the id is "123" and "unknown"
otherwise, whatever the outcome of the outbound call to service-b. -/
theorem c9_name_depends_only_on_id (id : String) (o₁ o₂ : CallOutcome)
    (tr₁ tr₂ : String) :
    (getUserModel id o₁ tr₁).2 = (getUserModel id o₂ tr₂).2 ∧
    (getUserModel id o₁ tr₁).2 = (if id = "123" then "otelgin tester" else "unknown") ∧
    (getUserModel "123" o₁ tr₁).2 = "otelgin tester" :=
  ⟨rfl, rfl, rfl⟩

/-- C3 counterexample: with no active SpanContext the "HTTP Request"
record's `trace_id` field is the 32-character hex encoding of the all-zero
TraceID, not the empty string the claim asserts. -/
theorem c3_counterexample :
    (loggerRecord none "GET" "/info" "" 200 5 "::1").fields.lookup "trace_id"
      = some (.str "00000000000000000000000000000000") ∧
    ("00000000000000000000000000000000" : String) ≠ "" := by
  refine ⟨by decide, by decide⟩

/-- C3 (amended): every record emitted through the trace-correlated logging
path carries a `trace_id` field — never omitted; in the middleware record
its value is the 32-character hex encoding of the TraceID visible in the
execution context (the active context's TraceID when present, the all-zero
TraceID otherwise), which is never the empty string; `logInfo` and
`logError` records carry the trace id string they were handed. -/
theorem c3_trace_id_always_present (ctx : Option SpanContext)
    (method path rawQuery : String) (status latency : Int) (clientIP : String)
    (tid svc msg : String) :
    (loggerRecord ctx method path rawQuery status latency clientIP).fields.lookup "trace_id"
      = some (.str (middlewareTraceID ctx)) ∧
    middlewareTraceID ctx = encodeHexStr 32 (spanFromContext ctx).tid ∧
    (middlewareTraceID ctx).length = 32 ∧
    middlewareTraceID ctx ≠ "" ∧
    (logInfo tid svc msg).fields.lookup "trace_id" = some (.str tid) ∧
    (logError tid svc msg).fields.lookup "trace_id" = some (.str tid) := by
  have hlen : (middlewareTraceID ctx).length = 32 := by
    show (encodeHexList 32 (spanFromContext ctx).tid).length = 32
    exact length_encodeHexList 32 _
  refine ⟨?_, rfl, hlen, ?_, rfl, rfl⟩
  · unfold loggerRecord
    split_ifs <;> rfl
  · intro h
    rw [h] at hlen
    simp at hlen

/-- C4: a malformed (or missing) trace-context header makes extraction
return absent rather than an error; service-b then starts a fresh root
trace whose TraceID differs from the incoming one, and the `/info` request
is still served with status 200. -/
theorem c4_malformed_header_fresh_root (smp : Sampler)
    (freshTid freshSid now incomingTid : Nat) (hfresh : freshTid ≠ incomingTid) :
    extractHeader "bogus-value" = none ∧
    (serviceBProcess smp (some "bogus-value") freshTid freshSid now).1 = 200 ∧
    (serviceBProcess smp (some "bogus-value") freshTid freshSid now).2.parent = none ∧
    (serviceBProcess smp (some "bogus-value") freshTid freshSid now).2.tid = freshTid ∧
    (serviceBProcess smp (some "bogus-value") freshTid freshSid now).2.tid ≠ incomingTid ∧
    (serviceBProcess smp none freshTid freshSid now).1 = 200 ∧
    (serviceBProcess smp none freshTid freshSid now).2.parent = none ∧
    (serviceBProcess smp none freshTid freshSid now).2.tid = freshTid :=
  ⟨rfl, rfl, rfl, rfl, hfresh, rfl, rfl, rfl⟩

/-- Witness for C4 at concrete fresh and incoming TraceIDs. -/
theorem c4_witness :
    (5 : Nat) ≠ 7 ∧
    (extractHeader "bogus-value" = none ∧
      (serviceBProcess ⟨0⟩ (some "bogus-value") 5 6 0).1 = 200 ∧
      (serviceBProcess ⟨0⟩ (some "bogus-value") 5 6 0).2.parent = none ∧
      (serviceBProcess ⟨0⟩ (some "bogus-value") 5 6 0).2.tid = 5 ∧
      (serviceBProcess ⟨0⟩ (some "bogus-value") 5 6 0).2.tid ≠ 7 ∧
      (serviceBProcess ⟨0⟩ none 5 6 0).1 = 200 ∧
      (serviceBProcess ⟨0⟩ none 5 6 0).2.parent = none ∧
      (serviceBProcess ⟨0⟩ none 5 6 0).2.tid = 5) :=
  ⟨by decide, c4_malformed_header_fresh_root ⟨0⟩ 5 6 0 7 (by decide)⟩

/-- C6: with ratio 0 the sampler never samples and no span of any trace is
sampled; with ratio 1 it always samples and every span of every trace is
sampled — quantified over all TraceIDs and over whole parent-based traces. -/
theorem c6_ratio_zero_and_one (rootTid rootSid now : Nat) (sids : List Nat)
    (tid : Nat) :
    shouldSample (mkSampler 0) tid = false ∧
    shouldSample (mkSampler 1) tid = true ∧
    (buildTrace (mkSampler 0) rootTid rootSid now sids).all
      (fun sp => !sp.sampled) = true ∧
    (buildTrace (mkSampler 1) rootTid rootSid now sids).all
      (fun sp => sp.sampled) = true := by
  refine ⟨shouldSample_ratio_zero tid, shouldSample_ratio_one tid, ?_, ?_⟩
  · rw [List.all_eq_true]
    intro sp hsp
    have := sampled_buildTrace _ _ _ _ _ _ hsp
    rw [shouldSample_ratio_zero] at this
    simp [this]
  · rw [List.all_eq_true]
    intro sp hsp
    have := sampled_buildTrace _ _ _ _ _ _ hsp
    rw [shouldSample_ratio_one] at this
    simp [this]

/-- C7: a configured sampling ratio outside [0,1] is reported as a
configuration error at process startup — the process goes fatal before
running, so no request is ever served under such a ratio and it can never
cause an error at request time. -/
theorem c7_ratio_out_of_range_fatal (r : ℚ) (h : r < 0 ∨ 1 < r) :
    startupModel r = .fatal .configurationError ∧
    (∀ s : Sampler, startupModel r ≠ .running s) := by
  have herr : initTracerModel r = .error .configurationError := by
    simp only [initTracerModel, mkSamplerChecked, if_pos h]
  refine ⟨?_, ?_⟩
  · simp [startupModel, herr]
  · intro s
    simp [startupModel, herr]

/-- Witness for C7 at the out-of-range ratio 2. -/
theorem c7_witness :
    ((2 : ℚ) < 0 ∨ 1 < (2 : ℚ)) ∧
    (startupModel 2 = .fatal .configurationError ∧
      (∀ s : Sampler, startupModel 2 ≠ .running s)) :=
  ⟨by norm_num, c7_ratio_out_of_range_fatal 2 (by norm_num)⟩

/-- C10: for every completed request the middleware emits exactly one
"HTTP Request" record, at Error level iff the status is at least 500, Warn
iff it is in [400,499], Info otherwise, and the record carries exactly the
six fields trace_id, method, path, status, latency, client_ip in order. -/
theorem c10_access_log_levels_and_fields (ctx : Option SpanContext)
    (method path rawQuery : String) (status latency : Int) (clientIP : String) :
    (loggerMiddlewareLogs ctx method path rawQuery status latency clientIP).length = 1 ∧
    loggerMiddlewareLogs ctx method path rawQuery status latency clientIP
      = [loggerRecord ctx method path rawQuery status latency clientIP] ∧
    (loggerRecord ctx method path rawQuery status latency clientIP).msg
      = "HTTP Request" ∧
    ((loggerRecord ctx method path rawQuery status latency clientIP).level = .error
      ↔ 500 ≤ status) ∧
    ((loggerRecord ctx method path rawQuery status latency clientIP).level = .warn
      ↔ 400 ≤ status ∧ status < 500) ∧
    ((loggerRecord ctx method path rawQuery status latency clientIP).level = .info
      ↔ status < 400) ∧
    (loggerRecord ctx method path rawQuery status latency clientIP).fields.map Prod.fst
      = ["trace_id", "method", "path", "status", "latency", "client_ip"] := by
  refine ⟨rfl, rfl, ?_, ?_, ?_, ?_, ?_⟩ <;> unfold loggerRecord <;>
    split_ifs with h₁ h₂ <;> simp_all <;> omega

/-- C5 counterexample: the carrier with version segment `01` is a valid
inbound carrier (the spec parses unrecognized versions best-effort), yet
extract-then-inject rewrites the version segment to `00` — the output
differs from the original outside the span-id segment (the span-id segment
itself round-trips unchanged), so the round-trip is not byte-identical
except for the span-id segment. -/
theorem c5_counterexample :
    extractHeader "01-0af7651916cd43dd8448eb211c80319c-b7ad6b7169203331-01"
      = some ⟨0x0af7651916cd43dd8448eb211c80319c, 0xb7ad6b7169203331, true, true⟩ ∧
    injectHeader ⟨0x0af7651916cd43dd8448eb211c80319c, 0xb7ad6b7169203331, true, true⟩
      = "00-0af7651916cd43dd8448eb211c80319c-b7ad6b7169203331-01" ∧
    (splitDash (injectHeader
        ⟨0x0af7651916cd43dd8448eb211c80319c, 0xb7ad6b7169203331, true, true⟩).data).getD 2 []
      = (splitDash
          ("01-0af7651916cd43dd8448eb211c80319c-b7ad6b7169203331-01" : String).data).getD 2 [] ∧
    (splitDash (injectHeader
        ⟨0x0af7651916cd43dd8448eb211c80319c, 0xb7ad6b7169203331, true, true⟩).data).getD 0 []
      ≠ (splitDash
          ("01-0af7651916cd43dd8448eb211c80319c-b7ad6b7169203331-01" : String).data).getD 0 [] := by
  refine ⟨by decide, by decide, by decide, by decide⟩

/-- C5 (amended): for every valid inbound carrier
`{version}-{trace-id}-{span-id}-{flags}` (four dash-separated lowercase-hex
segments of lengths 2/32/16/2, version not `ff`, nonzero ids), extraction
succeeds with the decoded ids and the flags' low bit, and injecting the
unmodified SpanContext reproduces the trace-id and span-id segments
byte-identically with the version and flags segments canonicalised to `00`
and to the sampled bit; when the carrier's version is `00` and its flags
byte is `00` or `01` the round-tripped header is byte-identical to the
original, including the span-id segment. -/
theorem c5_extract_inject_roundtrip (v t p f : List Char)
    (hv2 : v.length = 2) (hvh : v.all isLowerHex = true) (hvff : v ≠ ['f', 'f'])
    (ht2 : t.length = 32) (hth : t.all isLowerHex = true)
    (htnz : decodeHexList t ≠ 0)
    (hp2 : p.length = 16) (hph : p.all isLowerHex = true)
    (hpnz : decodeHexList p ≠ 0)
    (hf2 : f.length = 2) (hfh : f.all isLowerHex = true) :
    extractList (mkCarrier v t p f)
      = some ⟨decodeHexList t, decodeHexList p, decodeHexList f % 2 == 1, true⟩ ∧
    injectList ⟨decodeHexList t, decodeHexList p, decodeHexList f % 2 == 1, true⟩
      = mkCarrier ['0', '0'] t p
          (if decodeHexList f % 2 == 1 then ['0', '1'] else ['0', '0']) ∧
    (v = ['0', '0'] → f = ['0', '0'] ∨ f = ['0', '1'] →
      injectList ⟨decodeHexList t, decodeHexList p, decodeHexList f % 2 == 1, true⟩
        = mkCarrier v t p f) := by
  have hsplit : splitDash (mkCarrier v t p f) = [v, t, p, f] :=
    splitDash_mkCarrier v t p f (no_dash_of_all_hex v hvh) (no_dash_of_all_hex t hth)
      (no_dash_of_all_hex p hph) (no_dash_of_all_hex f hfh)
  have htenc : encodeHexList 32 (decodeHexList t) = t := by
    rw [← ht2]; exact encodeHexList_decodeHexList t hth
  have hpenc : encodeHexList 16 (decodeHexList p) = p := by
    rw [← hp2]; exact encodeHexList_decodeHexList p hph
  have hinj : injectList ⟨decodeHexList t, decodeHexList p, decodeHexList f % 2 == 1, true⟩
      = mkCarrier ['0', '0'] t p
          (if decodeHexList f % 2 == 1 then ['0', '1'] else ['0', '0']) := by
    unfold injectList
    rw [htenc, hpenc]
  refine ⟨?_, hinj, ?_⟩
  · unfold extractList
    rw [hsplit]
    exact if_pos ⟨hv2, hvh, hvff, ht2, hth, htnz, hp2, hph, hpnz, hf2, hfh, Or.inr rfl⟩
  · intro hv hf
    rw [hinj, hv]
    rcases hf with hf | hf <;> rw [hf] <;> rfl

/-- Witness for C5 (amended) at a concrete canonical carrier. -/
theorem c5_witness :
    (['0', '0'] : List Char).length = 2 ∧
    (['0', '0'] : List Char).all isLowerHex = true ∧
    (['0', '0'] : List Char) ≠ ['f', 'f'] ∧
    (List.replicate 31 '0' ++ ['1']).length = 32 ∧
    (List.replicate 31 '0' ++ ['1']).all isLowerHex = true ∧
    decodeHexList (List.replicate 31 '0' ++ ['1']) ≠ 0 ∧
    (List.replicate 15 '0' ++ ['1']).length = 16 ∧
    (List.replicate 15 '0' ++ ['1']).all isLowerHex = true ∧
    decodeHexList (List.replicate 15 '0' ++ ['1']) ≠ 0 ∧
    (['0', '1'] : List Char).length = 2 ∧
    (['0', '1'] : List Char).all isLowerHex = true ∧
    (extractList (mkCarrier ['0', '0'] (List.replicate 31 '0' ++ ['1'])
        (List.replicate 15 '0' ++ ['1']) ['0', '1'])
      = some ⟨decodeHexList (List.replicate 31 '0' ++ ['1']),
          decodeHexList (List.replicate 15 '0' ++ ['1']),
          decodeHexList (['0', '1'] : List Char) % 2 == 1, true⟩ ∧
    injectList ⟨decodeHexList (List.replicate 31 '0' ++ ['1']),
          decodeHexList (List.replicate 15 '0' ++ ['1']),
          decodeHexList (['0', '1'] : List Char) % 2 == 1, true⟩
      = mkCarrier ['0', '0'] (List.replicate 31 '0' ++ ['1'])
          (List.replicate 15 '0' ++ ['1'])
          (if decodeHexList (['0', '1'] : List Char) % 2 == 1
            then ['0', '1'] else ['0', '0']) ∧
    ((['0', '0'] : List Char) = ['0', '0'] →
      (['0', '1'] : List Char) = ['0', '0'] ∨ (['0', '1'] : List Char) = ['0', '1'] →
      injectList ⟨decodeHexList (List.replicate 31 '0' ++ ['1']),
          decodeHexList (List.replicate 15 '0' ++ ['1']),
          decodeHexList (['0', '1'] : List Char) % 2 == 1, true⟩
        = mkCarrier ['0', '0'] (List.replicate 31 '0' ++ ['1'])
            (List.replicate 15 '0' ++ ['1']) ['0', '1'])) :=
  ⟨by rfl, by rfl, by decide, by rfl, by rfl, by decide, by rfl,
   by rfl, by decide, by rfl, by rfl,
   c5_extract_inject_roundtrip ['0', '0'] (List.replicate 31 '0' ++ ['1'])
     (List.replicate 15 '0' ++ ['1']) ['0', '1'] (by rfl) (by rfl) (by decide)
     (by rfl) (by rfl) (by decide) (by rfl) (by rfl) (by decide)
     (by rfl) (by rfl)⟩

end TraceDemo
